import Mathlib

/-!
# Verification of the `lgtm` plugin (prow/plugins/lgtm)

Shallow embedding of the two Go source files of the repository:
`src/prow/plugins/lgtm/lgtm.go` (positional-argument handler) and
`src/unnamed/part_000` (struct-based handler).  The external GitHub
client is modelled as an oracle of pure response functions; each handler
returns the ordered list of client calls it issues together with the
error value it returns (`none` = Go `nil`).
-/

set_option autoImplicit false

namespace LgtmPlugin

/-- Go `error` values are opaque at this layer; we model them as strings. -/
abbrev Err := String

/-- `github.User` (only the `Login` field is read by the plugin). -/
structure UserT where
  login : String
deriving Repr, DecidableEq

/-- `github.Repo` (only `Owner.Login` and `Name` are read). -/
structure RepoT where
  owner : UserT
  name : String
deriving Repr, DecidableEq

/-- `github.Label` (only the `Name` field is read). -/
structure LabelT where
  name : String
deriving Repr, DecidableEq

/-- One call issued to the `githubClient` interface, with its arguments. -/
inductive Call where
  | isMember (org user : String)
  | addLabel (org repo : String) (number : Int) (label : String)
  | assignIssue (org repo : String) (number : Int) (assignees : List String)
  | createComment (org repo : String) (number : Int) (comment : String)
  | removeLabel (org repo : String) (number : Int) (label : String)
  | getIssueLabels (org repo : String) (number : Int)
deriving Repr, DecidableEq

/-- Recognizer for `createComment` calls in a trace. -/
def Call.isCreateCommentCall : Call → Bool
  | .createComment _ _ _ _ => true
  | _ => false

/-- Recognizer for `addLabel` calls in a trace. -/
def Call.isAddLabelCall : Call → Bool
  | .addLabel _ _ _ _ => true
  | _ => false

/-- Recognizer for `removeLabel` calls in a trace. -/
def Call.isRemoveLabelCall : Call → Bool
  | .removeLabel _ _ _ _ => true
  | _ => false

/-- Recognizer for `assignIssue` calls in a trace. -/
def Call.isAssignIssueCall : Call → Bool
  | .assignIssue _ _ _ _ => true
  | _ => false

/-- Recognizer for `getIssueLabels` calls in a trace. -/
def Call.isGetIssueLabelsCall : Call → Bool
  | .getIssueLabels _ _ _ => true
  | _ => false

/-- The `githubClient` interface of `lgtm.go`, modelled as an oracle of pure
response functions.  `IsMember` returns Go's `(bool, error)` pair and
`GetIssueLabels` returns `([]github.Label, error)`; mutating calls return a
bare `error` (`none` = success). -/
structure GithubClient where
  isMember : String → String → Bool × Option Err
  addLabel : String → String → Int → String → Option Err
  assignIssue : String → String → Int → List String → Option Err
  createComment : String → String → Int → String → Option Err
  removeLabel : String → String → Int → String → Option Err
  getIssueLabels : String → String → Int → List LabelT × Option Err

/-- The label name constant `lgtmLabel = "lgtm"`. -/
def lgtmLabel : String := "lgtm"

/-! ## The regexes `lgtmRe` and `lgtmCancelRe`

`lgtmRe = (?mi)^/lgtm(?: no-issue)?\s*$` and
`lgtmCancelRe = (?mi)^/lgtm cancel\s*$`.  In RE2 multiline mode `^`/`$`
anchor at line boundaries, `(?i)` folds case, and `\s = [\t\n\f\r ]`; a
multiline match exists exactly when some newline-separated line consists of
the (case-folded) literal followed only by whitespace.  We embed the match
accordingly: split the body on `'\n'` and test each line. -/

/-- RE2's `\s` character class `[\t\n\f\r ]`. -/
def isGoSpace (c : Char) : Bool :=
  c == ' ' || c == '\t' || c == '\n' || c == '\x0c' || c == '\r'

/-- Case-insensitive character comparison, as performed by the `(?i)` flag
on the ASCII literals of the two regexes. -/
def charEqCI (a b : Char) : Bool := a.toLower == b.toLower

/-- Strip the literal `pat` from the front of `line`, comparing characters
case-insensitively; return the remainder on success. -/
def dropLitCI : List Char → List Char → Option (List Char)
  | [], rest => some rest
  | _ :: _, [] => none
  | p :: ps, c :: cs => if charEqCI p c then dropLitCI ps cs else none

/-- Split a character list at each newline (the line structure that the
regexes' multiline anchors see). -/
def splitOnNewline : List Char → List (List Char)
  | [] => [[]]
  | c :: cs =>
    if c == '\n' then [] :: splitOnNewline cs
    else
      match splitOnNewline cs with
      | [] => [[c]]
      | l :: ls => (c :: l) :: ls

/-- The lines of a comment body, as seen by the multiline regexes. -/
def bodyLines (body : String) : List (List Char) := splitOnNewline body.data

/-- Does `line` consist of the literal `pat` (case-insensitively) followed
only by whitespace? -/
def litThenSpaces (pat line : List Char) : Bool :=
  match dropLitCI pat line with
  | some rest => rest.all isGoSpace
  | none => false

/-- Does one line match `^/lgtm(?: no-issue)?\s*$` (case-insensitively)? -/
def lgtmLineMatch (line : List Char) : Bool :=
  litThenSpaces "/lgtm".data line || litThenSpaces "/lgtm no-issue".data line

/-- Does one line match `^/lgtm cancel\s*$` (case-insensitively)? -/
def lgtmCancelLineMatch (line : List Char) : Bool :=
  litThenSpaces "/lgtm cancel".data line

/-- `lgtmRe.MatchString(body)`. -/
def lgtmReMatch (body : String) : Bool :=
  (bodyLines body).any lgtmLineMatch

/-- `lgtmCancelRe.MatchString(body)`. -/
def lgtmCancelReMatch (body : String) : Bool :=
  (bodyLines body).any lgtmCancelLineMatch

/-- Modelled from the spec: `plugins.FormatResponseRaw` is code of the
repository that is not under `src/` (only its callers are).  The spec
describes the posted reply solely by its message text ("post a reply
comment stating ...", "Post a reply comment combining ..."), so the
formatted reply is modelled as that message text. -/
def FormatResponseRaw (_body _htmlURL _author resp : String) : String := resp

/-- Modelled from the spec: `github.GenericCommentActionCreated` is a
constant of the `github` package, which is not under `src/`.  The spec calls
it the action "a new comment was created"; the handler only ever compares
the event's action against it, so its concrete value is immaterial. -/
def GenericCommentActionCreated : String := "created"

/-- `github.GenericCommentEvent` (the fields read by the plugin). -/
structure GenericCommentEvent where
  user : UserT
  issueAuthor : UserT
  repo : RepoT
  assignees : List UserT
  number : Int
  body : String
  htmlURL : String
  isPR : Bool
  issueState : String
  action : String
deriving Repr, DecidableEq

/-- `github.Review` (the fields read by the plugin). -/
structure ReviewT where
  user : UserT
  body : String
  htmlURL : String
  state : String
deriving Repr, DecidableEq

/-- `github.PullRequest` (the fields read by the plugin). -/
structure PullRequestT where
  user : UserT
  assignees : List UserT
  number : Int
deriving Repr, DecidableEq

/-- `github.ReviewEvent` (the fields read by the plugin). -/
structure ReviewEvent where
  review : ReviewT
  repo : RepoT
  pullRequest : PullRequestT
deriving Repr, DecidableEq

/-- The intent-extraction chain of `handleGenericComment`: `lgtmRe` first,
then `lgtmCancelRe`, otherwise no intent (the handler returns `nil`). -/
def commentIntent (body : String) : Option Bool :=
  if lgtmReMatch body then some true
  else if lgtmCancelReMatch body then some false
  else none

/-- The message chosen inside `handle` when `AssignIssue` fails:
`"only <org> org members may be assigned issues"` when `IsMember`
succeeds and reports non-membership, otherwise the generic
`"assigning you to the PR failed"`. -/
def lgtmMsg (gc : GithubClient) (org author : String) : String :=
  if (gc.isMember org author).2 == none && !(gc.isMember org author).1 then
    "only " ++ org ++ " org members may be assigned issues"
  else
    "assigning you to the PR failed"

/-- The label-mutation tail of `handle`: query the labels (the query's error
is only logged), compute `hasLGTM` from the returned list, then remove, add
or do nothing. -/
def labelMutation (wantLGTM : Bool) (gc : GithubClient) (org repoName : String)
    (number : Int) : List Call × Option Err :=
  let hasLGTM := (gc.getIssueLabels org repoName number).1.any
    (fun candidate => candidate.name == lgtmLabel)
  if hasLGTM && !wantLGTM then
    ([Call.getIssueLabels org repoName number,
      Call.removeLabel org repoName number lgtmLabel],
     gc.removeLabel org repoName number lgtmLabel)
  else if !hasLGTM && wantLGTM then
    ([Call.getIssueLabels org repoName number,
      Call.addLabel org repoName number lgtmLabel],
     gc.addLabel org repoName number lgtmLabel)
  else
    ([Call.getIssueLabels org repoName number], none)

end LgtmPlugin

namespace LgtmPlugin.Positional

open LgtmPlugin

/-- `handle` of `src/prow/plugins/lgtm/lgtm.go` (positional arguments):
assignment enforcement, then label mutation.  Returns the ordered call
trace and the Go return value. -/
def handle (wantLGTM : Bool) (author _issueAuthor : String) (repo : RepoT)
    (assignees : List UserT) (number : Int) (body htmlURL : String)
    (gc : GithubClient) : List Call × Option Err :=
  let org := repo.owner.login
  let repoName := repo.name
  let isAssignee := assignees.any (fun assignee => assignee.login == author)
  if !isAssignee then
    match gc.assignIssue org repoName number [author] with
    | some _ =>
      let resp := "changing LGTM is restricted to assignees, and "
        ++ lgtmMsg gc org author ++ "."
      let text := FormatResponseRaw body htmlURL author resp
      ([Call.assignIssue org repoName number [author],
        Call.isMember org author,
        Call.createComment org repoName number text],
       gc.createComment org repoName number text)
    | none =>
      let tail := labelMutation wantLGTM gc org repoName number
      (Call.assignIssue org repoName number [author] :: tail.1, tail.2)
  else
    labelMutation wantLGTM gc org repoName number

/-- `handleGenericComment` of `lgtm.go`: upstream filter, intent
extraction, self-LGTM guard, then `handle`. -/
def handleGenericComment (e : GenericCommentEvent) (gc : GithubClient) :
    List Call × Option Err :=
  let author := e.user.login
  let issueAuthor := e.issueAuthor.login
  if !e.isPR || e.issueState != "open" || e.action != GenericCommentActionCreated then
    ([], none)
  else
    match commentIntent e.body with
    | none => ([], none)
    | some wantLGTM =>
      if author == issueAuthor && wantLGTM then
        let text := FormatResponseRaw e.body e.htmlURL author
          "you cannot LGTM your own PR."
        ([Call.createComment e.repo.owner.login e.repo.name e.number text],
         gc.createComment e.repo.owner.login e.repo.name e.number text)
      else
        handle wantLGTM author issueAuthor e.repo e.assignees e.number
          e.body e.htmlURL gc

/-- `handlePullRequestReview` of `lgtm.go`: derive the intent from the
review state ("approve" → true, "changes_requested" → false, otherwise
return), then `handle`.  There is no self-review guard on this path. -/
def handlePullRequestReview (e : ReviewEvent) (gc : GithubClient) :
    List Call × Option Err :=
  if e.review.state == "approve" then
    handle true e.review.user.login e.pullRequest.user.login e.repo
      e.pullRequest.assignees e.pullRequest.number e.review.body
      e.review.htmlURL gc
  else if e.review.state == "changes_requested" then
    handle false e.review.user.login e.pullRequest.user.login e.repo
      e.pullRequest.assignees e.pullRequest.number e.review.body
      e.review.htmlURL gc
  else
    ([], none)

end LgtmPlugin.Positional

namespace LgtmPlugin.Structured

open LgtmPlugin

/-- The `state` struct of `src/unnamed/part_000`. -/
structure state where
  author : String
  issueAuthor : String
  repo : RepoT
  assignees : List UserT
  number : Int
  body : String
  htmlURL : String
deriving Repr, DecidableEq

/-- `handle` of `src/unnamed/part_000` (struct-based): identical logic to
the positional version, reading its inputs from the `state` struct. -/
def handle (wantLGTM : Bool) (gc : GithubClient) (pr : state) :
    List Call × Option Err :=
  let org := pr.repo.owner.login
  let repoName := pr.repo.name
  let isAssignee := pr.assignees.any (fun assignee => assignee.login == pr.author)
  if !isAssignee then
    match gc.assignIssue org repoName pr.number [pr.author] with
    | some _ =>
      let resp := "changing LGTM is restricted to assignees, and "
        ++ lgtmMsg gc org pr.author ++ "."
      let text := FormatResponseRaw pr.body pr.htmlURL pr.author resp
      ([Call.assignIssue org repoName pr.number [pr.author],
        Call.isMember org pr.author,
        Call.createComment org repoName pr.number text],
       gc.createComment org repoName pr.number text)
    | none =>
      let tail := labelMutation wantLGTM gc org repoName pr.number
      (Call.assignIssue org repoName pr.number [pr.author] :: tail.1, tail.2)
  else
    labelMutation wantLGTM gc org repoName pr.number

/-- `handleGenericComment` of `src/unnamed/part_000`. -/
def handleGenericComment (e : GenericCommentEvent) (gc : GithubClient) :
    List Call × Option Err :=
  let author := e.user.login
  let issueAuthor := e.issueAuthor.login
  if !e.isPR || e.issueState != "open" || e.action != GenericCommentActionCreated then
    ([], none)
  else
    match commentIntent e.body with
    | none => ([], none)
    | some wantLGTM =>
      if author == issueAuthor && wantLGTM then
        let text := FormatResponseRaw e.body e.htmlURL author
          "you cannot LGTM your own PR."
        ([Call.createComment e.repo.owner.login e.repo.name e.number text],
         gc.createComment e.repo.owner.login e.repo.name e.number text)
      else
        handle wantLGTM gc
          { author := author, issueAuthor := issueAuthor, repo := e.repo,
            assignees := e.assignees, number := e.number, body := e.body,
            htmlURL := e.htmlURL }

/-- `handlePullRequestReview` of `src/unnamed/part_000`. -/
def handlePullRequestReview (e : ReviewEvent) (gc : GithubClient) :
    List Call × Option Err :=
  if e.review.state == "approve" then
    handle true gc
      { author := e.review.user.login, issueAuthor := e.pullRequest.user.login,
        repo := e.repo, assignees := e.pullRequest.assignees,
        number := e.pullRequest.number, body := e.review.body,
        htmlURL := e.review.htmlURL }
  else if e.review.state == "changes_requested" then
    handle false gc
      { author := e.review.user.login, issueAuthor := e.pullRequest.user.login,
        repo := e.repo, assignees := e.pullRequest.assignees,
        number := e.pullRequest.number, body := e.review.body,
        htmlURL := e.review.htmlURL }
  else
    ([], none)

end LgtmPlugin.Structured

namespace LgtmPlugin

/-- Is `sub` a contiguous substring of `s`? -/
def isSubstrOf (sub s : String) : Bool :=
  s.data.tails.any (fun t => sub.data.isPrefixOf t)

/-- A client on which every call succeeds (no labels, member of the org). -/
def gcStub : GithubClient where
  isMember := fun _ _ => (true, none)
  addLabel := fun _ _ _ _ => none
  assignIssue := fun _ _ _ _ => none
  createComment := fun _ _ _ _ => none
  removeLabel := fun _ _ _ _ => none
  getIssueLabels := fun _ _ _ => ([], none)

/-- A client on which `AssignIssue` fails and `IsMember` reports the user a
non-member. -/
def gcAssignFailNonMember : GithubClient where
  isMember := fun _ _ => (false, none)
  addLabel := fun _ _ _ _ => none
  assignIssue := fun _ _ _ _ => some "boom"
  createComment := fun _ _ _ _ => none
  removeLabel := fun _ _ _ _ => none
  getIssueLabels := fun _ _ _ => ([], none)

/-- A client on which `AssignIssue` fails and the `IsMember` query itself
fails. -/
def gcAssignFailMemberErr : GithubClient where
  isMember := fun _ _ => (true, some "down")
  addLabel := fun _ _ _ _ => none
  assignIssue := fun _ _ _ _ => some "boom"
  createComment := fun _ _ _ _ => none
  removeLabel := fun _ _ _ _ => none
  getIssueLabels := fun _ _ _ => ([], none)

/-- A client on which `GetIssueLabels` fails (returning no labels beside the
error, as the real client does). -/
def gcLabelsFail : GithubClient where
  isMember := fun _ _ => (true, none)
  addLabel := fun _ _ _ _ => none
  assignIssue := fun _ _ _ _ => none
  createComment := fun _ _ _ _ => none
  removeLabel := fun _ _ _ _ => none
  getIssueLabels := fun _ _ _ => ([], some "boom")

/-- A client on which the issue already carries the "lgtm" label. -/
def gcHasLabel : GithubClient where
  isMember := fun _ _ => (true, none)
  addLabel := fun _ _ _ _ => none
  assignIssue := fun _ _ _ _ => none
  createComment := fun _ _ _ _ => none
  removeLabel := fun _ _ _ _ => none
  getIssueLabels := fun _ _ _ => ([{ name := "lgtm" }], none)

/-- A comment event: the PR author comments `/lgtm` on their own open PR. -/
def evSelfComment : GenericCommentEvent where
  user := { login := "bob" }
  issueAuthor := { login := "bob" }
  repo := { owner := { login := "o" }, name := "r" }
  assignees := []
  number := 1
  body := "/lgtm"
  htmlURL := "u"
  isPR := true
  issueState := "open"
  action := "created"

/-- A comment event: an assignee comments `/lgtm cancel` on an open PR. -/
def evCancelComment : GenericCommentEvent where
  user := { login := "alice" }
  issueAuthor := { login := "bob" }
  repo := { owner := { login := "o" }, name := "r" }
  assignees := [{ login := "alice" }]
  number := 1
  body := "/lgtm cancel"
  htmlURL := "u"
  isPR := true
  issueState := "open"
  action := "created"

/-- A review event: the PR author approves their own PR (already an
assignee, so assignment enforcement is skipped). -/
def evSelfApprove : ReviewEvent where
  review := { user := { login := "alice" }, body := "ok", htmlURL := "u",
              state := "approve" }
  repo := { owner := { login := "o" }, name := "r" }
  pullRequest := { user := { login := "alice" }, assignees := [{ login := "alice" }],
                   number := 7 }

/-- A review event whose state is neither "approve" nor
"changes_requested". -/
def evCommentReview : ReviewEvent where
  review := { user := { login := "alice" }, body := "hm", htmlURL := "u",
              state := "commented" }
  repo := { owner := { login := "o" }, name := "r" }
  pullRequest := { user := { login := "bob" }, assignees := [], number := 2 }

/-- A comment event whose target is not a pull request. -/
def evNotPR : GenericCommentEvent where
  user := { login := "alice" }
  issueAuthor := { login := "bob" }
  repo := { owner := { login := "o" }, name := "r" }
  assignees := []
  number := 4
  body := "/lgtm"
  htmlURL := "u"
  isPR := false
  issueState := "open"
  action := "created"

end LgtmPlugin

namespace LgtmPlugin

/-! ## Helper lemmas -/

/-- `dropLitCI pat l` succeeds with remainder `r` exactly when `l` splits as
a prefix that case-folds to `pat` (up to case-folding of `pat` itself)
followed by `r`. -/
theorem dropLitCI_eq_some_iff (pat : List Char) :
    ∀ l r : List Char, dropLitCI pat l = some r ↔
      ∃ pre, l = pre ++ r ∧ pre.map Char.toLower = pat.map Char.toLower := by
  induction pat with
  | nil =>
    intro l r
    simp only [dropLitCI, Option.some.injEq, List.map_nil]
    constructor
    · rintro rfl
      exact ⟨[], rfl, rfl⟩
    · rintro ⟨pre, hl, hpre⟩
      rw [List.map_eq_nil_iff] at hpre
      subst hpre
      simpa using hl
  | cons p ps ih =>
    intro l r
    cases l with
    | nil =>
      simp only [dropLitCI]
      constructor
      · intro h; exact absurd h (by simp)
      · rintro ⟨pre, hl, hpre⟩
        have hpre0 : pre = [] := by
          cases pre with
          | nil => rfl
          | cons a pre2 => exact absurd hl (by simp)
        subst hpre0
        simp at hpre
    | cons c cs =>
      simp only [dropLitCI]
      cases hpc : charEqCI p c with
      | false =>
        simp only [Bool.false_eq_true, if_false]
        constructor
        · intro h; exact absurd h (by simp)
        · rintro ⟨pre, hl, hpre⟩
          cases pre with
          | nil => simp at hpre
          | cons a pre2 =>
            simp only [List.cons_append, List.cons.injEq] at hl
            simp only [List.map_cons, List.cons.injEq] at hpre
            have : charEqCI p c = true := by
              simp only [charEqCI, beq_iff_eq]
              rw [hl.1]
              exact hpre.1.symm
            rw [hpc] at this
            exact absurd this (by simp)
      | true =>
        simp only [if_true]
        rw [ih cs r]
        constructor
        · rintro ⟨pre, hcs, hpre⟩
          refine ⟨c :: pre, by simp [hcs], ?_⟩
          simp only [List.map_cons, List.cons.injEq]
          have : c.toLower = p.toLower := by
            have := hpc
            simp only [charEqCI, beq_iff_eq] at this
            exact this.symm
          exact ⟨this, hpre⟩
        · rintro ⟨pre, hl, hpre⟩
          cases pre with
          | nil => simp at hpre
          | cons a pre2 =>
            simp only [List.cons_append, List.cons.injEq] at hl
            simp only [List.map_cons, List.cons.injEq] at hpre
            exact ⟨pre2, hl.2, hpre.2⟩

/-- `litThenSpaces pat l` holds exactly when `l` is a case-insensitive copy
of `pat` followed only by whitespace. -/
theorem litThenSpaces_iff (pat l : List Char) :
    litThenSpaces pat l = true ↔
      ∃ pre suf, l = pre ++ suf ∧ suf.all isGoSpace = true ∧
        pre.map Char.toLower = pat.map Char.toLower := by
  unfold litThenSpaces
  cases h : dropLitCI pat l with
  | none =>
    simp only [Bool.false_eq_true, false_iff]
    rintro ⟨pre, suf, hl, _, hm⟩
    have h2 := (dropLitCI_eq_some_iff pat l suf).mpr ⟨pre, hl, hm⟩
    rw [h] at h2
    exact absurd h2 (by simp)
  | some rest =>
    constructor
    · intro hall
      obtain ⟨pre, hl, hm⟩ := (dropLitCI_eq_some_iff pat l rest).mp h
      exact ⟨pre, rest, hl, hall, hm⟩
    · rintro ⟨pre, suf, hl, hs, hm⟩
      have h2 := (dropLitCI_eq_some_iff pat l suf).mpr ⟨pre, hl, hm⟩
      rw [h] at h2
      have : rest = suf := by injection h2
      rw [this]
      exact hs

end LgtmPlugin

namespace LgtmPlugin

/-! ## Claim theorems -/

/-- Claim C7: for every review event whose review state is neither
"approve" nor "changes_requested", the review handler returns success
immediately and makes zero client calls. -/
theorem C7_review_other_state_noop (e : ReviewEvent) (gc : GithubClient)
    (h1 : e.review.state ≠ "approve") (h2 : e.review.state ≠ "changes_requested") :
    Positional.handlePullRequestReview e gc = ([], none) := by
  unfold Positional.handlePullRequestReview
  rw [if_neg (by simpa using h1), if_neg (by simpa using h2)]

/-- Witness for C7 at a concrete "commented" review event. -/
theorem C7_review_other_state_noop_witness :
    (evCommentReview.review.state ≠ "approve"
      ∧ evCommentReview.review.state ≠ "changes_requested")
    ∧ Positional.handlePullRequestReview evCommentReview gcStub = ([], none) :=
  ⟨⟨by decide, by decide⟩,
   C7_review_other_state_noop evCommentReview gcStub (by decide) (by decide)⟩

/-- Claim C8: for every comment event where the target is not a pull
request, or the issue state is not "open", or the action is not "created",
the comment handler returns success immediately with zero client calls. -/
theorem C8_comment_filter_noop (e : GenericCommentEvent) (gc : GithubClient)
    (h : e.isPR = false ∨ e.issueState ≠ "open"
      ∨ e.action ≠ GenericCommentActionCreated) :
    Positional.handleGenericComment e gc = ([], none) := by
  unfold Positional.handleGenericComment
  have hcond : (!e.isPR || e.issueState != "open"
      || e.action != GenericCommentActionCreated) = true := by
    rcases h with h | h | h
    · simp [h]
    · simp [h]
    · simp [h]
  rw [if_pos hcond]

/-- Witness for C8 at a concrete non-PR comment event. -/
theorem C8_comment_filter_noop_witness :
    (evNotPR.isPR = false ∨ evNotPR.issueState ≠ "open"
      ∨ evNotPR.action ≠ GenericCommentActionCreated)
    ∧ Positional.handleGenericComment evNotPR gcStub = ([], none) :=
  ⟨Or.inl (by decide),
   C8_comment_filter_noop evNotPR gcStub (Or.inl (by decide))⟩

/-- Claim C9: the positional-argument handler implementation
(`lgtm.go`) and the struct-based implementation (`part_000`) are
behaviorally identical: for every input and every client, `handle` and the
two wrapping event handlers issue the same call traces and return the same
results. -/
theorem C9_positional_structured_equivalent :
    (∀ (wantLGTM : Bool) (author issueAuthor : String) (repo : RepoT)
        (assignees : List UserT) (number : Int) (body htmlURL : String)
        (gc : GithubClient),
      Positional.handle wantLGTM author issueAuthor repo assignees number
          body htmlURL gc
        = Structured.handle wantLGTM gc
            { author := author, issueAuthor := issueAuthor, repo := repo,
              assignees := assignees, number := number, body := body,
              htmlURL := htmlURL })
    ∧ (∀ (e : GenericCommentEvent) (gc : GithubClient),
        Positional.handleGenericComment e gc = Structured.handleGenericComment e gc)
    ∧ (∀ (e : ReviewEvent) (gc : GithubClient),
        Positional.handlePullRequestReview e gc
          = Structured.handlePullRequestReview e gc) :=
  ⟨fun _ _ _ _ _ _ _ _ _ => rfl, fun _ _ => rfl, fun _ _ => rfl⟩

/-- Claim C10: a body containing both a line matching the affirmative
`/lgtm` pattern and a line matching `/lgtm cancel` yields intent `true`:
`lgtmRe` is tested before `lgtmCancelRe`. -/
theorem C10_affirmative_precedence (body : String)
    (haff : (bodyLines body).any lgtmLineMatch = true)
    (_hcancel : (bodyLines body).any lgtmCancelLineMatch = true) :
    commentIntent body = some true := by
  unfold commentIntent
  rw [if_pos (by simpa [lgtmReMatch] using haff)]

/-- Witness for C10 at the concrete body "/lgtm\n/lgtm cancel". -/
theorem C10_affirmative_precedence_witness :
    ((bodyLines "/lgtm\n/lgtm cancel").any lgtmLineMatch = true
      ∧ (bodyLines "/lgtm\n/lgtm cancel").any lgtmCancelLineMatch = true)
    ∧ commentIntent "/lgtm\n/lgtm cancel" = some true :=
  ⟨⟨by decide, by decide⟩,
   C10_affirmative_precedence "/lgtm\n/lgtm cancel" (by decide) (by decide)⟩

end LgtmPlugin

namespace LgtmPlugin

/-- Claim C2: once the label-mutation step is reached (the acting user is
an assignee or the assignment call succeeded), the handler performs exactly
one of three mutually exclusive actions, determined by the queried
`hasLabel` and the intent `wantLGTM`: remove once (returning the removal
result), add once (returning the addition result), or neither (returning
success). -/
theorem C2_label_mutation_trichotomy (wantLGTM : Bool)
    (author issueAuthor : String) (repo : RepoT) (assignees : List UserT)
    (number : Int) (body htmlURL : String) (gc : GithubClient)
    (hreach : assignees.any (fun assignee => assignee.login == author) = true
      ∨ gc.assignIssue repo.owner.login repo.name number [author] = none) :
    ((gc.getIssueLabels repo.owner.login repo.name number).1.any
        (fun candidate => candidate.name == lgtmLabel) = true → wantLGTM = false →
      (Positional.handle wantLGTM author issueAuthor repo assignees number
          body htmlURL gc).1.filter Call.isRemoveLabelCall
        = [Call.removeLabel repo.owner.login repo.name number lgtmLabel]
      ∧ (Positional.handle wantLGTM author issueAuthor repo assignees number
          body htmlURL gc).1.filter Call.isAddLabelCall = []
      ∧ (Positional.handle wantLGTM author issueAuthor repo assignees number
          body htmlURL gc).2
        = gc.removeLabel repo.owner.login repo.name number lgtmLabel)
    ∧ ((gc.getIssueLabels repo.owner.login repo.name number).1.any
        (fun candidate => candidate.name == lgtmLabel) = false → wantLGTM = true →
      (Positional.handle wantLGTM author issueAuthor repo assignees number
          body htmlURL gc).1.filter Call.isAddLabelCall
        = [Call.addLabel repo.owner.login repo.name number lgtmLabel]
      ∧ (Positional.handle wantLGTM author issueAuthor repo assignees number
          body htmlURL gc).1.filter Call.isRemoveLabelCall = []
      ∧ (Positional.handle wantLGTM author issueAuthor repo assignees number
          body htmlURL gc).2
        = gc.addLabel repo.owner.login repo.name number lgtmLabel)
    ∧ ((gc.getIssueLabels repo.owner.login repo.name number).1.any
        (fun candidate => candidate.name == lgtmLabel) = wantLGTM →
      (Positional.handle wantLGTM author issueAuthor repo assignees number
          body htmlURL gc).1.filter Call.isRemoveLabelCall = []
      ∧ (Positional.handle wantLGTM author issueAuthor repo assignees number
          body htmlURL gc).1.filter Call.isAddLabelCall = []
      ∧ (Positional.handle wantLGTM author issueAuthor repo assignees number
          body htmlURL gc).2 = none) := by
  have hmain : ∀ hL : Bool,
      (gc.getIssueLabels repo.owner.login repo.name number).1.any
        (fun candidate => candidate.name == lgtmLabel) = hL →
      ((Positional.handle wantLGTM author issueAuthor repo assignees number
          body htmlURL gc).1.filter Call.isRemoveLabelCall
        = (labelMutation wantLGTM gc repo.owner.login repo.name number).1.filter
            Call.isRemoveLabelCall
      ∧ (Positional.handle wantLGTM author issueAuthor repo assignees number
          body htmlURL gc).1.filter Call.isAddLabelCall
        = (labelMutation wantLGTM gc repo.owner.login repo.name number).1.filter
            Call.isAddLabelCall
      ∧ (Positional.handle wantLGTM author issueAuthor repo assignees number
          body htmlURL gc).2
        = (labelMutation wantLGTM gc repo.owner.login repo.name number).2) := by
    intro hL _
    rcases hreach with h | h
    · simp [Positional.handle, h, Call.isRemoveLabelCall, Call.isAddLabelCall]
    · cases hA : assignees.any (fun assignee => assignee.login == author) with
      | true => simp [Positional.handle, hA]
      | false =>
        simp [Positional.handle, hA, h, Call.isRemoveLabelCall, Call.isAddLabelCall,
          List.filter_cons]
  refine ⟨fun h1 h2 => ?_, fun h1 h2 => ?_, fun h3 => ?_⟩
  · obtain ⟨e1, e2, e3⟩ := hmain true h1
    rw [e1, e2, e3]
    subst h2
    simp [labelMutation, h1, Call.isRemoveLabelCall, Call.isAddLabelCall]
  · obtain ⟨e1, e2, e3⟩ := hmain false h1
    rw [e1, e2, e3]
    subst h2
    simp [labelMutation, h1, Call.isRemoveLabelCall, Call.isAddLabelCall]
  · obtain ⟨e1, e2, e3⟩ := hmain wantLGTM h3
    rw [e1, e2, e3]
    cases hw : wantLGTM with
    | false =>
      rw [hw] at h3
      simp [labelMutation, h3, Call.isRemoveLabelCall, Call.isAddLabelCall]
    | true =>
      rw [hw] at h3
      simp [labelMutation, h3, Call.isRemoveLabelCall, Call.isAddLabelCall]

end LgtmPlugin

namespace LgtmPlugin

/-- Witness for C2: an assignee cancels while the label is present; exactly
one removal occurs. -/
theorem C2_label_mutation_trichotomy_witness :
    ((([⟨"alice"⟩] : List UserT).any (fun assignee => assignee.login == "alice") = true
        ∨ gcHasLabel.assignIssue "o" "r" 3 ["alice"] = none)
      ∧ (gcHasLabel.getIssueLabels "o" "r" 3).1.any
          (fun candidate => candidate.name == lgtmLabel) = true)
    ∧ (Positional.handle false "alice" "bob" ⟨⟨"o"⟩, "r"⟩ [⟨"alice"⟩] 3
        "/lgtm cancel" "u" gcHasLabel).1.filter Call.isRemoveLabelCall
      = [Call.removeLabel "o" "r" 3 lgtmLabel] := by
  refine ⟨⟨Or.inl (by decide), by decide⟩, ?_⟩
  exact ((C2_label_mutation_trichotomy false "alice" "bob" ⟨⟨"o"⟩, "r"⟩ [⟨"alice"⟩] 3
    "/lgtm cancel" "u" gcHasLabel (Or.inl (by decide))).1 (by decide) rfl).1

/-- Claim C4: when the acting user is not an assignee and `AssignIssue`
fails, the handler posts exactly one reply whose text is "changing LGTM is
restricted to assignees, and " + the chosen message + ".", and performs no
label query and no label mutation, however the membership classification
resolved. -/
theorem C4_assign_failure_blocks_labels (wantLGTM : Bool)
    (author issueAuthor : String) (repo : RepoT) (assignees : List UserT)
    (number : Int) (body htmlURL : String) (gc : GithubClient)
    (hnot : assignees.any (fun assignee => assignee.login == author) = false)
    (e : Err)
    (hfail : gc.assignIssue repo.owner.login repo.name number [author] = some e) :
    ∃ msg, (msg = "only " ++ repo.owner.login ++ " org members may be assigned issues"
        ∨ msg = "assigning you to the PR failed")
      ∧ (Positional.handle wantLGTM author issueAuthor repo assignees number
          body htmlURL gc).1.filter Call.isCreateCommentCall
        = [Call.createComment repo.owner.login repo.name number
            ("changing LGTM is restricted to assignees, and " ++ msg ++ ".")]
      ∧ (Positional.handle wantLGTM author issueAuthor repo assignees number
          body htmlURL gc).1.filter Call.isGetIssueLabelsCall = []
      ∧ (Positional.handle wantLGTM author issueAuthor repo assignees number
          body htmlURL gc).1.filter Call.isAddLabelCall = []
      ∧ (Positional.handle wantLGTM author issueAuthor repo assignees number
          body htmlURL gc).1.filter Call.isRemoveLabelCall = []
      ∧ (Positional.handle wantLGTM author issueAuthor repo assignees number
          body htmlURL gc).2
        = gc.createComment repo.owner.login repo.name number
            ("changing LGTM is restricted to assignees, and " ++ msg ++ ".") := by
  refine ⟨lgtmMsg gc repo.owner.login author, ?_, ?_, ?_, ?_, ?_, ?_⟩
  · unfold lgtmMsg
    split
    · exact Or.inl rfl
    · exact Or.inr rfl
  all_goals
    simp [Positional.handle, hnot, hfail, FormatResponseRaw,
      Call.isCreateCommentCall, Call.isGetIssueLabelsCall,
      Call.isAddLabelCall, Call.isRemoveLabelCall]

/-- Witness for C4: a non-assignee whose assignment attempt fails. -/
theorem C4_assign_failure_blocks_labels_witness :
    ((([] : List UserT).any (fun assignee => assignee.login == "alice") = false)
      ∧ gcAssignFailNonMember.assignIssue "o" "r" 3 ["alice"] = some "boom")
    ∧ (∃ msg, (msg = "only " ++ "o" ++ " org members may be assigned issues"
        ∨ msg = "assigning you to the PR failed")
      ∧ (Positional.handle true "alice" "bob" ⟨⟨"o"⟩, "r"⟩ [] 3 "/lgtm" "u"
          gcAssignFailNonMember).1.filter Call.isCreateCommentCall
        = [Call.createComment "o" "r" 3
            ("changing LGTM is restricted to assignees, and " ++ msg ++ ".")]
      ∧ (Positional.handle true "alice" "bob" ⟨⟨"o"⟩, "r"⟩ [] 3 "/lgtm" "u"
          gcAssignFailNonMember).1.filter Call.isGetIssueLabelsCall = []
      ∧ (Positional.handle true "alice" "bob" ⟨⟨"o"⟩, "r"⟩ [] 3 "/lgtm" "u"
          gcAssignFailNonMember).1.filter Call.isAddLabelCall = []
      ∧ (Positional.handle true "alice" "bob" ⟨⟨"o"⟩, "r"⟩ [] 3 "/lgtm" "u"
          gcAssignFailNonMember).1.filter Call.isRemoveLabelCall = []
      ∧ (Positional.handle true "alice" "bob" ⟨⟨"o"⟩, "r"⟩ [] 3 "/lgtm" "u"
          gcAssignFailNonMember).2
        = gcAssignFailNonMember.createComment "o" "r" 3
            ("changing LGTM is restricted to assignees, and " ++ msg ++ ".")) := by
  refine ⟨⟨by decide, rfl⟩, ?_⟩
  exact C4_assign_failure_blocks_labels true "alice" "bob" ⟨⟨"o"⟩, "r"⟩ [] 3
    "/lgtm" "u" gcAssignFailNonMember (by decide) "boom" rfl

end LgtmPlugin

namespace LgtmPlugin

/-- Claim C5: a failed `GetIssueLabels` query is not propagated; the
handler continues with `hasLabel = false`, so with intent `true` it still
calls `AddLabel` (returning that call's result) and with intent `false` it
calls neither mutation and returns success.  (The real client returns no
labels beside an error, which the `hempty` hypothesis records.) -/
theorem C5_label_query_failure_fail_open (wantLGTM : Bool)
    (author issueAuthor : String) (repo : RepoT) (assignees : List UserT)
    (number : Int) (body htmlURL : String) (gc : GithubClient)
    (hreach : assignees.any (fun assignee => assignee.login == author) = true
      ∨ gc.assignIssue repo.owner.login repo.name number [author] = none)
    (e : Err)
    (_hqfail : (gc.getIssueLabels repo.owner.login repo.name number).2 = some e)
    (hempty : (gc.getIssueLabels repo.owner.login repo.name number).1 = []) :
    (wantLGTM = true →
      (Positional.handle wantLGTM author issueAuthor repo assignees number
          body htmlURL gc).1.filter Call.isAddLabelCall
        = [Call.addLabel repo.owner.login repo.name number lgtmLabel]
      ∧ (Positional.handle wantLGTM author issueAuthor repo assignees number
          body htmlURL gc).1.filter Call.isRemoveLabelCall = []
      ∧ (Positional.handle wantLGTM author issueAuthor repo assignees number
          body htmlURL gc).2
        = gc.addLabel repo.owner.login repo.name number lgtmLabel)
    ∧ (wantLGTM = false →
      (Positional.handle wantLGTM author issueAuthor repo assignees number
          body htmlURL gc).1.filter Call.isAddLabelCall = []
      ∧ (Positional.handle wantLGTM author issueAuthor repo assignees number
          body htmlURL gc).1.filter Call.isRemoveLabelCall = []
      ∧ (Positional.handle wantLGTM author issueAuthor repo assignees number
          body htmlURL gc).2 = none) := by
  have hmain :
      (Positional.handle wantLGTM author issueAuthor repo assignees number
          body htmlURL gc).1.filter Call.isRemoveLabelCall
        = (labelMutation wantLGTM gc repo.owner.login repo.name number).1.filter
            Call.isRemoveLabelCall
      ∧ (Positional.handle wantLGTM author issueAuthor repo assignees number
          body htmlURL gc).1.filter Call.isAddLabelCall
        = (labelMutation wantLGTM gc repo.owner.login repo.name number).1.filter
            Call.isAddLabelCall
      ∧ (Positional.handle wantLGTM author issueAuthor repo assignees number
          body htmlURL gc).2
        = (labelMutation wantLGTM gc repo.owner.login repo.name number).2 := by
    rcases hreach with h | h
    · simp [Positional.handle, h, Call.isRemoveLabelCall, Call.isAddLabelCall]
    · cases hA : assignees.any (fun assignee => assignee.login == author) with
      | true => simp [Positional.handle, hA]
      | false =>
        simp [Positional.handle, hA, h, Call.isRemoveLabelCall, Call.isAddLabelCall,
          List.filter_cons]
  obtain ⟨e1, e2, e3⟩ := hmain
  refine ⟨fun hw => ?_, fun hw => ?_⟩ <;> subst hw <;> rw [e1, e2, e3] <;>
    simp [labelMutation, hempty, Call.isRemoveLabelCall, Call.isAddLabelCall]

/-- Witness for C5: an assignee issues `/lgtm` while the label query fails;
`AddLabel` is still called. -/
theorem C5_label_query_failure_fail_open_witness :
    ((([⟨"alice"⟩] : List UserT).any (fun assignee => assignee.login == "alice") = true
        ∨ gcLabelsFail.assignIssue "o" "r" 3 ["alice"] = none)
      ∧ (gcLabelsFail.getIssueLabels "o" "r" 3).2 = some "boom"
      ∧ (gcLabelsFail.getIssueLabels "o" "r" 3).1 = [])
    ∧ (Positional.handle true "alice" "bob" ⟨⟨"o"⟩, "r"⟩ [⟨"alice"⟩] 3 "/lgtm" "u"
        gcLabelsFail).1.filter Call.isAddLabelCall
      = [Call.addLabel "o" "r" 3 lgtmLabel] := by
  refine ⟨⟨Or.inl (by decide), rfl, rfl⟩, ?_⟩
  exact ((C5_label_query_failure_fail_open true "alice" "bob" ⟨⟨"o"⟩, "r"⟩
    [⟨"alice"⟩] 3 "/lgtm" "u" gcLabelsFail (Or.inl (by decide)) "boom" rfl rfl).1 rfl).1

/-- Claim C6: when `AssignIssue` fails, the reply's message is chosen by
the membership classification: a successful `IsMember` returning `false`
yields the organization-naming message, while a failed membership query or
a confirmed member yields the generic "assigning you to the PR failed". -/
theorem C6_assign_failure_message_choice (wantLGTM : Bool)
    (author issueAuthor : String) (repo : RepoT) (assignees : List UserT)
    (number : Int) (body htmlURL : String) (gc : GithubClient)
    (hnot : assignees.any (fun assignee => assignee.login == author) = false)
    (e : Err)
    (hfail : gc.assignIssue repo.owner.login repo.name number [author] = some e) :
    (gc.isMember repo.owner.login author = (false, none) →
      (Positional.handle wantLGTM author issueAuthor repo assignees number
          body htmlURL gc).1.filter Call.isCreateCommentCall
        = [Call.createComment repo.owner.login repo.name number
            ("changing LGTM is restricted to assignees, and "
              ++ ("only " ++ repo.owner.login ++ " org members may be assigned issues")
              ++ ".")])
    ∧ (∀ me : Err, (gc.isMember repo.owner.login author).2 = some me →
      (Positional.handle wantLGTM author issueAuthor repo assignees number
          body htmlURL gc).1.filter Call.isCreateCommentCall
        = [Call.createComment repo.owner.login repo.name number
            ("changing LGTM is restricted to assignees, and "
              ++ "assigning you to the PR failed" ++ ".")])
    ∧ (gc.isMember repo.owner.login author = (true, none) →
      (Positional.handle wantLGTM author issueAuthor repo assignees number
          body htmlURL gc).1.filter Call.isCreateCommentCall
        = [Call.createComment repo.owner.login repo.name number
            ("changing LGTM is restricted to assignees, and "
              ++ "assigning you to the PR failed" ++ ".")]) := by
  refine ⟨fun hm => ?_, fun me hm => ?_, fun hm => ?_⟩ <;>
    simp [Positional.handle, hnot, hfail, lgtmMsg, hm, FormatResponseRaw,
      Call.isCreateCommentCall]

/-- Witness for C6: the membership query reports a non-member, so the reply
names the organization. -/
theorem C6_assign_failure_message_choice_witness :
    ((([] : List UserT).any (fun assignee => assignee.login == "alice") = false)
      ∧ gcAssignFailNonMember.assignIssue "o" "r" 3 ["alice"] = some "boom"
      ∧ gcAssignFailNonMember.isMember "o" "alice" = (false, none))
    ∧ (Positional.handle true "alice" "bob" ⟨⟨"o"⟩, "r"⟩ [] 3 "/lgtm" "u"
        gcAssignFailNonMember).1.filter Call.isCreateCommentCall
      = [Call.createComment "o" "r" 3
          ("changing LGTM is restricted to assignees, and "
            ++ ("only " ++ "o" ++ " org members may be assigned issues") ++ ".")] := by
  refine ⟨⟨by decide, rfl, rfl⟩, ?_⟩
  exact (C6_assign_failure_message_choice true "alice" "bob" ⟨⟨"o"⟩, "r"⟩ [] 3
    "/lgtm" "u" gcAssignFailNonMember (by decide) "boom" rfl).1 rfl

end LgtmPlugin

namespace LgtmPlugin

/-- Counterexample to claim C1 as stated: for review events the guard does
not exist.  The PR author approves their own PR; the handler posts no
comment at all and adds the label. -/
theorem C1_counterexample :
    Positional.handlePullRequestReview evSelfApprove gcStub
      = ([Call.getIssueLabels "o" "r" 7, Call.addLabel "o" "r" 7 lgtmLabel], none)
    ∧ (Positional.handlePullRequestReview evSelfApprove gcStub).1.filter
        Call.isCreateCommentCall = []
    ∧ (Positional.handlePullRequestReview evSelfApprove gcStub).1.filter
        Call.isAddLabelCall ≠ [] := by
  refine ⟨by decide, by decide, by decide⟩

/-- Claim C1 (amended): for every comment event passing the upstream filter
in which the acting user equals the pull-request author and the extracted
intent is "want label = true", the handler makes exactly one
`createComment` call whose text contains "cannot LGTM your own PR" and
makes no `addLabel`, `removeLabel`, or `assignIssue` call; the refusal does
not apply when the intent is "cancel" (the author's cancel proceeds to
`handle`, i.e. assignment enforcement and label mutation).  The refusal
also does not apply to review events: `handlePullRequestReview` has no
self-review guard (see the counterexample). -/
theorem C1_self_lgtm_guard (e : GenericCommentEvent) (gc : GithubClient)
    (hpr : e.isPR = true) (hopen : e.issueState = "open")
    (hact : e.action = GenericCommentActionCreated) :
    (lgtmReMatch e.body = true → e.user.login = e.issueAuthor.login →
      (Positional.handleGenericComment e gc).1
        = [Call.createComment e.repo.owner.login e.repo.name e.number
            "you cannot LGTM your own PR."]
      ∧ isSubstrOf "cannot LGTM your own PR" "you cannot LGTM your own PR." = true
      ∧ (Positional.handleGenericComment e gc).1.filter Call.isAddLabelCall = []
      ∧ (Positional.handleGenericComment e gc).1.filter Call.isRemoveLabelCall = []
      ∧ (Positional.handleGenericComment e gc).1.filter Call.isAssignIssueCall = []
      ∧ (Positional.handleGenericComment e gc).2
        = gc.createComment e.repo.owner.login e.repo.name e.number
            "you cannot LGTM your own PR.")
    ∧ (lgtmReMatch e.body = false → lgtmCancelReMatch e.body = true →
      Positional.handleGenericComment e gc
        = Positional.handle false e.user.login e.issueAuthor.login e.repo
            e.assignees e.number e.body e.htmlURL gc) := by
  constructor
  · intro haff heq
    have htrace : Positional.handleGenericComment e gc
        = ([Call.createComment e.repo.owner.login e.repo.name e.number
             "you cannot LGTM your own PR."],
           gc.createComment e.repo.owner.login e.repo.name e.number
             "you cannot LGTM your own PR.") := by
      simp [Positional.handleGenericComment, hpr, hopen, hact, commentIntent,
        haff, heq, FormatResponseRaw]
    rw [htrace]
    refine ⟨rfl, by decide, rfl, rfl, rfl, rfl⟩
  · intro haff hcan
    simp [Positional.handleGenericComment, hpr, hopen, hact, commentIntent,
      haff, hcan]

/-- Witness for C1 (amended): the PR author comments `/lgtm` on their own
open PR and receives exactly the refusal comment. -/
theorem C1_self_lgtm_guard_witness :
    (evSelfComment.isPR = true ∧ evSelfComment.issueState = "open"
      ∧ evSelfComment.action = GenericCommentActionCreated
      ∧ lgtmReMatch evSelfComment.body = true
      ∧ evSelfComment.user.login = evSelfComment.issueAuthor.login)
    ∧ (Positional.handleGenericComment evSelfComment gcStub).1
      = [Call.createComment "o" "r" 1 "you cannot LGTM your own PR."] := by
  refine ⟨⟨rfl, rfl, rfl, by decide, rfl⟩, ?_⟩
  exact ((C1_self_lgtm_guard evSelfComment gcStub rfl rfl rfl).1 (by decide) rfl).1

end LgtmPlugin

namespace LgtmPlugin

/-- Counterexample to claim C3 as stated: a body containing a line that is
exactly "/lgtm cancel" does not always yield intent `false` — when another
line matches the affirmative pattern, `lgtmRe` wins and the intent is
`true`. -/
theorem C3_counterexample :
    (bodyLines "/lgtm\n/lgtm cancel").any lgtmCancelLineMatch = true
    ∧ commentIntent "/lgtm\n/lgtm cancel" ≠ some false
    ∧ commentIntent "/lgtm\n/lgtm cancel" = some true := by
  refine ⟨by decide, by decide, by decide⟩

/-- Claim C3 (amended): for every comment event passing the upstream
filter, intent extraction works line by line and case-insensitively: a line
consisting solely of `/lgtm` or `/lgtm no-issue` (with optional trailing
whitespace) yields intent `true`; a line consisting solely of
`/lgtm cancel` yields intent `false` provided no line matches the
affirmative pattern; a body matching neither pattern causes an immediate
successful return with zero client calls. -/
theorem C3_intent_extraction (e : GenericCommentEvent) (gc : GithubClient)
    (hpr : e.isPR = true) (hopen : e.issueState = "open")
    (hact : e.action = GenericCommentActionCreated) :
    (∀ line : List Char, lgtmLineMatch line = true ↔
      ∃ pre suf, line = pre ++ suf ∧ suf.all isGoSpace = true ∧
        (pre.map Char.toLower = "/lgtm".data
          ∨ pre.map Char.toLower = "/lgtm no-issue".data))
    ∧ (∀ line : List Char, lgtmCancelLineMatch line = true ↔
      ∃ pre suf, line = pre ++ suf ∧ suf.all isGoSpace = true ∧
        pre.map Char.toLower = "/lgtm cancel".data)
    ∧ ((bodyLines e.body).any lgtmLineMatch = true →
        commentIntent e.body = some true)
    ∧ ((bodyLines e.body).any lgtmLineMatch = false →
        (bodyLines e.body).any lgtmCancelLineMatch = true →
        commentIntent e.body = some false)
    ∧ (commentIntent e.body = none →
        Positional.handleGenericComment e gc = ([], none)) := by
  have hlow1 : ("/lgtm".data).map Char.toLower = "/lgtm".data := by decide
  have hlow2 : ("/lgtm no-issue".data).map Char.toLower = "/lgtm no-issue".data := by
    decide
  have hlow3 : ("/lgtm cancel".data).map Char.toLower = "/lgtm cancel".data := by
    decide
  refine ⟨?_, ?_, ?_, ?_, ?_⟩
  · intro line
    simp only [lgtmLineMatch, Bool.or_eq_true, litThenSpaces_iff, hlow1, hlow2]
    constructor
    · rintro (⟨pre, suf, hl, hs, hm⟩ | ⟨pre, suf, hl, hs, hm⟩)
      exacts [⟨pre, suf, hl, hs, Or.inl hm⟩, ⟨pre, suf, hl, hs, Or.inr hm⟩]
    · rintro ⟨pre, suf, hl, hs, hm | hm⟩
      exacts [Or.inl ⟨pre, suf, hl, hs, hm⟩, Or.inr ⟨pre, suf, hl, hs, hm⟩]
  · intro line
    simp only [lgtmCancelLineMatch, litThenSpaces_iff, hlow3]
  · intro haff
    unfold commentIntent
    rw [if_pos (by simpa [lgtmReMatch] using haff)]
  · intro haff hcan
    unfold commentIntent
    rw [if_neg (by simp [lgtmReMatch, haff]),
      if_pos (by simpa [lgtmCancelReMatch] using hcan)]
  · intro hnone
    simp [Positional.handleGenericComment, hpr, hopen, hact, hnone]

/-- Witness for C3 (amended): an assignee's plain `/lgtm cancel` yields
intent `false`. -/
theorem C3_intent_extraction_witness :
    (evCancelComment.isPR = true ∧ evCancelComment.issueState = "open"
      ∧ evCancelComment.action = GenericCommentActionCreated
      ∧ (bodyLines evCancelComment.body).any lgtmLineMatch = false
      ∧ (bodyLines evCancelComment.body).any lgtmCancelLineMatch = true)
    ∧ commentIntent evCancelComment.body = some false := by
  refine ⟨⟨rfl, rfl, rfl, by decide, by decide⟩, ?_⟩
  exact (C3_intent_extraction evCancelComment gcStub rfl rfl rfl).2.2.2.1
    (by decide) (by decide)

end LgtmPlugin
